import Mathlib

/-!
Verification development for the Weather-Forecast-MAS repository.

Shallow embedding of the multi-source consensus engine
(`src/agents/data_acquisition.py`), the insight/report agent
(`src/agents/weather_data_report.py`) and the shared data model
(`src/utils/weather_client/base_client.py`, `src/workflows/state.py`).

Python floats are embedded as rationals (`ℚ`) wherever the code only uses
field arithmetic and comparisons; the confidence score (which takes a real
square root via `statistics.stdev`) and the circular mean (trigonometry)
are embedded over `ℝ`.
-/

namespace WeatherMAS

/-- Supported weather data providers (`DataSource` enum in
`weather_client/base_client.py`). -/
inductive DataSource where
  | openweather
  | weatherapi
  | visualcrossing
  | accuweather
  | noaa
deriving DecidableEq, Repr

/-- Standardized weather observation shared across providers
(`WeatherData` dataclass in `weather_client/base_client.py`).
Numeric fields are rationals; optional fields are `Option`;
`raw_data` and the timestamp fields are irrelevant to the claims
and omitted. -/
structure WeatherData where
  source : DataSource
  location : String
  country : String
  temperature : ℚ
  feels_like : ℚ
  temp_min : ℚ
  temp_max : ℚ
  humidity : ℚ
  pressure : ℚ
  wind_speed : ℚ
  wind_direction : ℚ
  wind_gust : Option ℚ := none
  description : String := ""
  conditions : String := ""
  cloud_cover : Option ℚ := none
  precipitation : Option ℚ := none
  uv_index : Option ℚ := none
  error : Option String := none
deriving DecidableEq, Repr

/-- Result from a single source (`SourceResult` dataclass in
`agents/data_acquisition.py`). -/
structure SourceResult where
  source : DataSource
  data : Option WeatherData
  response_time : ℚ
  success : Bool
  error : Option String := none
deriving DecidableEq, Repr

/-- Arithmetic mean of a list of rationals (`statistics.mean`);
`0` on the empty list (Python raises there, but every call site in
the embedded code guards non-emptiness). -/
def rmean (l : List ℚ) : ℚ := l.sum / l.length

/-- Python `max` over a list (call sites guarantee non-emptiness). -/
def maxList : List ℚ → ℚ
  | [] => 0
  | x :: xs => xs.foldl max x

/-- Python `min` over a list (call sites guarantee non-emptiness). -/
def minList : List ℚ → ℚ
  | [] => 0
  | x :: xs => xs.foldl min x

/-- Individual weather source data flowing through the LangGraph state
(`WeatherSourceData` dataclass in `workflows/state.py`; the
auto-generated `timestamp` string is irrelevant to the claims and
omitted). -/
structure WeatherSourceData where
  source : String
  temperature : ℚ
  feels_like : ℚ
  humidity : ℚ
  pressure : ℚ
  wind_speed : ℚ
  conditions : String
  description : String
  wind_direction : ℚ
  error : Option String := none
deriving DecidableEq, Repr

/-- Weather alert structure (`WeatherAlert` dataclass in
`workflows/state.py`). -/
structure WeatherAlert where
  severity : String
  type : String
  message : String
  threshold : Option ℚ := none
  current_value : Option ℚ := none
  recommendation : Option String := none
deriving DecidableEq, Repr

/-- `ReportAgent._calculate_comfort_index` in
`agents/weather_data_report.py`: comfort index (0-100) from
temperature, humidity and wind speed, plus the qualitative level. -/
def calculate_comfort_index (temp humidity wind_speed : ℚ) : ℚ × String :=
  let temp_score : ℚ :=
    if 68 ≤ temp ∧ temp ≤ 72 then 100
    else if temp < 32 then max 0 (100 - (32 - temp) * 3)
    else if temp > 90 then max 0 (100 - (temp - 90) * 2)
    else 100 - |temp - 70| * 2
  let humidity_score : ℚ :=
    if 40 ≤ humidity ∧ humidity ≤ 60 then 100
    else 100 - |humidity - 50| * 1.5
  let wind_score : ℚ :=
    if 5 ≤ wind_speed ∧ wind_speed ≤ 15 then 100
    else if wind_speed > 30 then max 0 (100 - (wind_speed - 30) * 3)
    else 100 - |wind_speed - 10| * 5
  let comfort : ℚ := temp_score * 0.5 + humidity_score * 0.3 + wind_score * 0.2
  let comfort : ℚ := max 0 (min 100 comfort)
  let level : String :=
    if comfort ≥ 80 then "Very Comfortable"
    else if comfort ≥ 60 then "Comfortable"
    else if comfort ≥ 40 then "Moderate"
    else if comfort ≥ 20 then "Uncomfortable"
    else "Very Uncomfortable"
  (comfort, level)

/-- `ReportAgent._calculate_severity_score`: numerical severity score.
`conditions_primary` embeds `conditions.get("primary")` (absent key
gives `none`); `temp_range` embeds `temp_stats.get("range", 0)`. -/
def calculate_severity_score (severity : String) (conditions_primary : Option String)
    (temp_range : Option ℚ) : ℚ :=
  let base : ℚ :=
    if severity = "severe" then 80
    else if severity = "high" then 60
    else if severity = "moderate" then 40
    else if severity = "normal" then 20
    else 20
  let score : ℚ :=
    if conditions_primary = some "Thunderstorm" ∨ conditions_primary = some "Blizzard" then
      base + 20
    else if conditions_primary = some "Heavy Rain" ∨ conditions_primary = some "Heavy Snow" then
      base + 10
    else base
  let score : ℚ := if temp_range.getD 0 > 15 then score + 5 else score
  min 100 score

/-- `all(temps[i] < temps[i+1] for i in range(len(temps)-1))` from
`ReportAgent._analyze_trends`: every consecutive pair strictly
increasing. -/
def strictlyRising (l : List ℚ) : Bool :=
  (l.zip l.tail).all fun p => p.1 < p.2

/-- `all(temps[i] > temps[i+1] for i in range(len(temps)-1))` from
`ReportAgent._analyze_trends`: every consecutive pair strictly
decreasing. -/
def strictlyFalling (l : List ℚ) : Bool :=
  (l.zip l.tail).all fun p => p.1 > p.2

/-- `ReportAgent._interpret_trends`: implications of the two trend
labels. -/
def interpret_trends (temp_trend pressure_trend : String) : List String :=
  if pressure_trend = "low" ∧ temp_trend = "rising" then ["Potential for stormy weather"]
  else if pressure_trend = "high" ∧ temp_trend = "falling" then ["Weather likely to clear"]
  else if pressure_trend = "low" then ["Possible precipitation"]
  else []

/-- Return value of `ReportAgent._analyze_trends`: either the
`{"available": False, "reason": ...}` dictionary or the
`{"available": True, ...}` dictionary. -/
inductive TrendResult where
  | unavailable (reason : String)
  | available (temperature : String) (pressure : String) (implications : List String)
deriving DecidableEq, Repr

/-- `ReportAgent._analyze_trends`: trend analysis over the raw
source data. -/
def analyze_trends (raw_data : List WeatherSourceData) : TrendResult :=
  if raw_data.length < 3 then .unavailable "Insufficient data points"
  else
    let temps := raw_data.map (·.temperature)
    let pressures := raw_data.map (·.pressure)
    let temp_trend : String :=
      if 3 ≤ temps.length then
        if strictlyRising temps then "rising"
        else if strictlyFalling temps then "falling"
        else "stable"
      else "stable"
    let pressure_trend : String :=
      if 3 ≤ pressures.length then
        if rmean pressures < 1000 then "low"
        else if rmean pressures > 1020 then "high"
        else "stable"
      else "stable"
    .available temp_trend pressure_trend (interpret_trends temp_trend pressure_trend)

/-- Temperature-trend label of a `TrendResult`, when available. -/
def TrendResult.tempLabel? : TrendResult → Option String
  | .unavailable _ => none
  | .available t _ _ => some t

/-- `ReportAgent._categorize_alerts_by_severity`: counts per severity
bucket, as the tuple (critical, high, medium, low); severities outside
the four fixed keys are ignored, exactly as in the Python dictionary
increment. -/
def categorize_alerts_by_severity (alerts : List WeatherAlert) : ℕ × ℕ × ℕ × ℕ :=
  alerts.foldl
    (fun c a =>
      if a.severity = "critical" then (c.1 + 1, c.2.1, c.2.2.1, c.2.2.2)
      else if a.severity = "high" then (c.1, c.2.1 + 1, c.2.2.1, c.2.2.2)
      else if a.severity = "medium" then (c.1, c.2.1, c.2.2.1 + 1, c.2.2.2)
      else if a.severity = "low" then (c.1, c.2.1, c.2.2.1, c.2.2.2 + 1)
      else c)
    (0, 0, 0, 0)

/-- One-decimal rendering of a rational, modelling Python's
`f"{x:.1f}"` (the exact rounding mode of the binary float is
irrelevant to the claims; this rendering is a deterministic total
function of the value). -/
def fmt1 (q : ℚ) : String :=
  let n : ℤ := round (q * 10)
  let sign := if n < 0 then "-" else ""
  let m := n.natAbs
  sign ++ toString (m / 10) ++ "." ++ toString (m % 10)

/-- The `temperature` sub-dictionary of the insights structure, as
consumed by `_generate_executive_summary_from_insights`
(`temp_stats.get("avg", 0)`). -/
structure TempStatsIn where
  avg : Option ℚ := none
deriving DecidableEq, Repr

/-- The `conditions` sub-dictionary (`conditions.get("primary",
"Unknown")`). -/
structure ConditionsIn where
  primary : Option String := none
deriving DecidableEq, Repr

/-- The `comfort` sub-dictionary (`comfort.get("level", "Unknown")`). -/
structure ComfortIn where
  level : Option String := none
deriving DecidableEq, Repr

/-- The `severity` sub-dictionary (`severity.get("level", "normal")`). -/
structure SeverityIn where
  level : Option String := none
deriving DecidableEq, Repr

/-- Insights structure as consumed by
`_generate_executive_summary_from_insights`; each field embeds
`insights.get(key, {})`. -/
structure InsightsIn where
  temperature : Option TempStatsIn := none
  conditions : Option ConditionsIn := none
  comfort : Option ComfortIn := none
  severity : Option SeverityIn := none
deriving DecidableEq, Repr

/-- `ReportAgent._generate_executive_summary_from_insights`: builds the
executive summary string from location, insights and alerts. -/
def generate_executive_summary_from_insights (location : String)
    (insights : InsightsIn) (alerts : List WeatherAlert) : String :=
  let avg_temp := ((insights.temperature.getD {}).avg).getD 0
  let primary_condition := ((insights.conditions.getD {}).primary).getD "Unknown"
  let comfort_level := ((insights.comfort.getD {}).level).getD "Unknown"
  let severity_level := ((insights.severity.getD {}).level).getD "normal"
  let critical_alerts := alerts.filter fun a => a.severity = "critical"
  let high_alerts := alerts.filter fun a => a.severity = "high"
  let summary : List String :=
    ["Weather Report for " ++ location,
     "Current Conditions: " ++ primary_condition ++ " at " ++ fmt1 avg_temp ++ "°F",
     "Comfort Level: " ++ comfort_level,
     "Severity Assessment: " ++ severity_level.toUpper]
  let summary :=
    if critical_alerts.length > 0 then
      summary ++ ["CRITICAL ALERTS: " ++ toString critical_alerts.length ++
        " active - Immediate attention required"]
    else summary
  let summary :=
    if high_alerts.length > 0 then
      summary ++ ["High Priority Alerts: " ++ toString high_alerts.length ++ " active"]
    else summary
  String.intercalate " | " summary

/-- Reliability weight table of `DataAcquisitonAgent._get_source_weights`;
sources outside the table (NOAA) receive the `weights.get(s, 0.1)`
default. -/
def baseWeight : DataSource → ℚ
  | .openweather => 0.35
  | .weatherapi => 0.30
  | .visualcrossing => 0.25
  | .accuweather => 0.10
  | .noaa => 0.1

/-- `DataAcquisitonAgent._get_source_weights`: normalized weights over
the available sources (empty map when no source is available). -/
def get_source_weights (available : List DataSource) : DataSource → Option ℚ :=
  fun s =>
    if available = [] then none
    else if s ∈ available then some (baseWeight s / (available.map baseWeight).sum)
    else none

/-- `DataAcquisitonAgent._weighted_average`: `values` and `sources` are
zipped (Python `zip` truncates to the shorter list), entries whose value
is `None` are dropped, and the reliability-weighted mean is taken when
every remaining source has a weight (falling back to the plain mean
otherwise, or when the weight sum is not positive). -/
def weighted_average (w : DataSource → Option ℚ) (values : List (Option ℚ))
    (sources : List DataSource) : ℚ :=
  if values = [] then 0
  else
    let valid := (values.zip sources).filterMap fun p => p.1.map fun v => (v, p.2)
    if valid = [] then 0
    else if valid.all fun p => (w p.2).isSome then
      let total := (valid.map fun p => p.1 * (w p.2).getD 0).sum
      let weight_sum := (valid.map fun p => (w p.2).getD 0).sum
      if weight_sum > 0 then total / weight_sum else rmean (valid.map (·.1))
    else rmean (valid.map (·.1))

/-- `DataAcquisitonAgent._most_common`: most frequent string, ties
resolved by first occurrence (the behaviour of
`collections.Counter.most_common`, whose sort is stable over insertion
order). -/
def most_common (items : List String) : String :=
  match items with
  | [] => "Unknown"
  | x :: _ =>
    items.eraseDups.foldl
      (fun best s => if items.count best < items.count s then s else best) x

/-- Sample standard deviation `statistics.stdev` (denominator `n - 1`),
over the rationals viewed in `ℝ`. -/
noncomputable def sampleStdev (l : List ℚ) : ℝ :=
  Real.sqrt ((l.map fun x : ℚ => ((x : ℝ) - (rmean l : ℝ)) ^ 2).sum / ((l.length : ℝ) - 1))

/-- The local `cv` helper of `DataAcquisitonAgent._calculate_confidence`:
coefficient of variation, `0` for an empty list or a zero mean, with the
standard deviation taken as `0` for fewer than two samples. -/
noncomputable def cv (values : List ℚ) : ℝ :=
  if values = [] then 0
  else if rmean values = 0 then 0
  else (if 1 < values.length then sampleStdev values else 0) / (rmean values : ℝ)

/-- `DataAcquisitonAgent._calculate_confidence`: agreement-based
confidence score in `[0, 1]`. -/
noncomputable def calculate_confidence (temperatures wind_speeds humidities : List ℚ) : ℝ :=
  if temperatures.length < 2 then 0.5
  else
    let temp_confidence := max 0 (1 - cv temperatures * 10)
    let wind_confidence := max 0 (1 - cv wind_speeds * 5)
    let humidity_confidence := max 0 (1 - cv humidities * 2)
    let confidence := temp_confidence * 0.4 + wind_confidence * 0.3 + humidity_confidence * 0.3
    let source_factor := min 1 ((temperatures.length : ℝ) / 3)
    min 1 (max 0 (confidence * source_factor))

/-- Python's `math.atan2`: the two-argument arctangent. -/
noncomputable def atan2 (y x : ℝ) : ℝ :=
  if 0 < x then Real.arctan (y / x)
  else if x < 0 then
    if 0 ≤ y then Real.arctan (y / x) + Real.pi else Real.arctan (y / x) - Real.pi
  else if 0 < y then Real.pi / 2
  else if y < 0 then -(Real.pi / 2)
  else 0

/-- `DataAcquisitonAgent._circular_mean`: circular mean of angles in
degrees, using the source's approximation `3.14159` of pi and Python's
float modulo `% 360` (which equals `x - 360 * ⌊x / 360⌋`). -/
noncomputable def circular_mean (angles : List ℚ) : ℝ :=
  if angles = [] then 0
  else
    let angles_rad := angles.map fun a => (a : ℝ) * 3.14159 / 180
    let sin_sum := (angles_rad.map Real.sin).sum
    let cos_sum := (angles_rad.map Real.cos).sum
    let mean_rad := atan2 (sin_sum / angles.length) (cos_sum / angles.length)
    let mean_deg := mean_rad * 180 / 3.14159
    mean_deg - 360 * ⌊mean_deg / 360⌋

/-- A disagreement message of `DataAcquisitonAgent._check_disagreements`.
The Python code renders these as strings
(`"Temperature disagreement: src: t°F, ..."`); the embedding keeps the
structured per-source values the string is built from. -/
inductive Disagreement where
  | temperature (pairs : List (DataSource × ℚ))
  | condition (pairs : List (DataSource × String))
deriving DecidableEq, Repr

/-- `DataAcquisitonAgent._check_disagreements`: flags a temperature
disagreement when `max - min > 5` and a condition disagreement when more
than one distinct condition appears (`len(set(conditions)) > 1`). -/
def check_disagreements (successful : List (DataSource × WeatherData)) : List Disagreement :=
  if successful.length < 2 then []
  else
    let temps := successful.map (·.2.temperature)
    let d1 : List Disagreement :=
      if maxList temps - minList temps > 5 then
        [.temperature (successful.map fun p => (p.1, p.2.temperature))]
      else []
    let conditions := successful.map (·.2.conditions)
    let d2 : List Disagreement :=
      if conditions.dedup.length > 1 then
        [.condition (successful.map fun p => (p.1, p.2.conditions))]
      else []
    d1 ++ d2

/-- The `successful_results` dictionary built at the top of
`DataAcquisitonAgent.calculate_consensus`: sources whose result is
successful and carries data. -/
def successfulResults (all_results : List (DataSource × SourceResult)) :
    List (DataSource × WeatherData) :=
  all_results.filterMap fun p =>
    if p.2.success then p.2.data.map fun d => (p.1, d) else none

/-- Consensus data from multiple sources (`ConsensusData` dataclass in
`agents/data_acquisition.py`). The optional-field aggregates
(`wind_gust`, `cloud_cover`, `precipitation`, `uv_index`) are stored as
the plain number `_weighted_average` returns (`0.0` when no source
reported the field). -/
structure ConsensusData where
  temperature : ℚ
  feels_like : ℚ
  temp_min : ℚ
  temp_max : ℚ
  humidity : ℚ
  pressure : ℚ
  wind_speed : ℚ
  wind_direction : ℝ
  wind_gust : ℚ
  description : String
  conditions : String
  cloud_cover : ℚ
  precipitation : ℚ
  uv_index : ℚ
  location : String
  country : String
  sources_used : ℕ
  total_sources : ℕ
  confidence : ℝ
  disagreements : List Disagreement
  source_details : List (DataSource × WeatherData)

/-- `DataAcquisitonAgent.calculate_consensus`: raises
`ValueError("No successful weather data sources")` on an empty
successful set (embedded as `Except.error`), otherwise aggregates.
`w` is `self.source_weights` and `total_clients` is
`len(self.clients)`. Note the optional fields are pre-filtered with
`if d.x is not None` and then zipped against the full key list, exactly
as in the source. -/
noncomputable def calculate_consensus (w : DataSource → Option ℚ) (total_clients : ℕ)
    (all_results : List (DataSource × SourceResult)) : Except String ConsensusData :=
  match successfulResults all_results with
  | [] => .error "No successful weather data sources"
  | first :: rest =>
    let successful := first :: rest
    let temperatures := successful.map (·.2.temperature)
    let feels_likes := successful.map (·.2.feels_like)
    let humidities := successful.map (·.2.humidity)
    let pressures := successful.map (·.2.pressure)
    let wind_speeds := successful.map (·.2.wind_speed)
    let wind_directions := successful.map (·.2.wind_direction)
    let descriptions := successful.map (·.2.description)
    let conditions := successful.map (·.2.conditions)
    let sources := successful.map (·.1)
    let primary_data :=
      match successful.find? (fun p => p.1 = DataSource.openweather) with
      | some p => p.2
      | none => first.2
    .ok {
      temperature := weighted_average w (temperatures.map some) sources
      feels_like := weighted_average w (feels_likes.map some) sources
      temp_min := minList temperatures
      temp_max := maxList temperatures
      humidity := weighted_average w (humidities.map some) sources
      pressure := weighted_average w (pressures.map some) sources
      wind_speed := weighted_average w (wind_speeds.map some) sources
      wind_direction := circular_mean wind_directions
      wind_gust := weighted_average w ((successful.filterMap (·.2.wind_gust)).map some) sources
      description := most_common descriptions
      conditions := most_common conditions
      cloud_cover :=
        weighted_average w ((successful.filterMap (·.2.cloud_cover)).map some) sources
      precipitation :=
        weighted_average w ((successful.filterMap (·.2.precipitation)).map some) sources
      uv_index := weighted_average w ((successful.filterMap (·.2.uv_index)).map some) sources
      location := primary_data.location
      country := primary_data.country
      sources_used := successful.length
      total_sources := total_clients
      confidence := calculate_confidence temperatures wind_speeds humidities
      disagreements := check_disagreements successful
      source_details := successful }

/-- Per-source entry of the `source_details` dictionary built by
`get_weather_summary` in the success case. The Python code formats the
numbers into display strings; the embedding carries the underlying
values. -/
inductive SourceDetail where
  | okD (temperature humidity wind_speed : ℚ) (conditions : String) (response_time : ℚ)
  | errD (error : Option String) (response_time : ℚ)
deriving DecidableEq, Repr

/-- Return value of `DataAcquisitonAgent.get_weather_summary`: the
`success: True` dictionary (consensus plus per-source details) or the
`success: False` dictionary (error message plus per-source
`{error, response_time}` entries). -/
inductive WeatherSummary where
  | ok (consensus : ConsensusData) (source_details : List (DataSource × SourceDetail))
  | failed (error : String) (source_details : List (DataSource × Option String × ℚ))

/-- `DataAcquisitonAgent.get_weather_summary`, applied to the results of
`fetch_all_sources`: catches the `ValueError` of `calculate_consensus`
and converts it into the `success: False` dictionary carrying the error
message and the per-source failure details; it is a total function
(no unhandled exception). -/
noncomputable def get_weather_summary (w : DataSource → Option ℚ) (total_clients : ℕ)
    (all_results : List (DataSource × SourceResult)) : WeatherSummary :=
  match calculate_consensus w total_clients all_results with
  | .ok consensus =>
      .ok consensus (all_results.map fun p =>
        (p.1,
          match p.2.success, p.2.data with
          | true, some d =>
              .okD d.temperature d.humidity d.wind_speed d.conditions p.2.response_time
          | _, _ => .errD p.2.error p.2.response_time))
  | .error e =>
      .failed e (all_results.map fun p => (p.1, p.2.error, p.2.response_time))

/-- What `client.get_weather(location)` does for one provider: return a
(possibly error-tagged) `WeatherData`, or raise an exception. Network
behaviour is exogenous and injected as data. -/
inductive FetchOutcome where
  | returns (d : WeatherData)
  | raises (message : String)
deriving DecidableEq, Repr

/-- One configured client as seen by
`DataAcquisitonAgent.fetch_all_sources`: its availability flag, the
outcome of its `get_weather` call and the elapsed response time. -/
structure ClientState where
  is_available : Bool
  outcome : FetchOutcome
  response_time : ℚ
deriving DecidableEq, Repr

/-- `DataAcquisitonAgent.fetch_all_sources`: skips unavailable clients,
classifies each attempted fetch as success, provider error
(`weather_data.error` set) or exception (message truncated to 100
characters). -/
def fetch_all_sources (clients : List (DataSource × ClientState)) :
    List (DataSource × SourceResult) :=
  clients.filterMap fun p =>
    if p.2.is_available = false then none
    else some (p.1,
      match p.2.outcome with
      | .returns d =>
        if d.error ≠ none then
          { source := p.1, data := none, response_time := p.2.response_time,
            success := false, error := d.error }
        else
          { source := p.1, data := some d, response_time := p.2.response_time,
            success := true }
      | .raises m =>
        { source := p.1, data := none, response_time := p.2.response_time,
          success := false, error := some (m.take 100) })

/-- Claim-side definition following the spec's words for optional-field
aggregation: each present value is paired with the weight of the source
that actually reported it, and a missing value is excluded from both
the numerator and the weight sum. Used only for comparison against the
behaviour of `calculate_consensus`. -/
def spec_paired_weighted_average (w : DataSource → Option ℚ)
    (successful : List (DataSource × WeatherData))
    (value : WeatherData → Option ℚ) : ℚ :=
  let valid := successful.filterMap fun p => (value p.2).map fun v => (p.1, v)
  let weight_sum := (valid.map fun p => (w p.1).getD 0).sum
  if weight_sum > 0 then (valid.map fun p => p.2 * (w p.1).getD 0).sum / weight_sum
  else rmean (valid.map (·.2))

/-! ### Helper lemmas -/

theorem categorize_foldl (alerts : List WeatherAlert) (cr hi me lo : ℕ) :
    alerts.foldl
      (fun c a =>
        if a.severity = "critical" then (c.1 + 1, c.2.1, c.2.2.1, c.2.2.2)
        else if a.severity = "high" then (c.1, c.2.1 + 1, c.2.2.1, c.2.2.2)
        else if a.severity = "medium" then (c.1, c.2.1, c.2.2.1 + 1, c.2.2.2)
        else if a.severity = "low" then (c.1, c.2.1, c.2.2.1, c.2.2.2 + 1)
        else c)
      (cr, hi, me, lo) =
    (cr + alerts.countP (fun a => a.severity == "critical"),
     hi + alerts.countP (fun a => a.severity == "high"),
     me + alerts.countP (fun a => a.severity == "medium"),
     lo + alerts.countP (fun a => a.severity == "low")) := by
  induction alerts generalizing cr hi me lo with
  | nil => simp
  | cons a t ih =>
    simp only [List.foldl_cons, List.countP_cons]
    by_cases h1 : a.severity = "critical"
    · simp [h1, ih, Nat.add_assoc, Nat.add_comm 1]
    · by_cases h2 : a.severity = "high"
      · simp [h1, h2, ih, Nat.add_assoc, Nat.add_comm 1]
      · by_cases h3 : a.severity = "medium"
        · simp [h1, h2, h3, ih, Nat.add_assoc, Nat.add_comm 1]
        · by_cases h4 : a.severity = "low"
          · simp [h1, h2, h3, h4, ih, Nat.add_assoc, Nat.add_comm 1]
          · simp [h1, h2, h3, h4, ih]

/-! ### C10 -/

/-- C10: for every severity string and every conditions/temperature
input, `_calculate_severity_score` returns a value in `[20, 100]`:
the per-level base is at least 20 (also for unrecognized severities),
the condition and temperature-range bumps are non-negative, and the
result is capped at 100. -/
theorem severity_score_in_range (severity : String) (conditions_primary : Option String)
    (temp_range : Option ℚ) :
    20 ≤ calculate_severity_score severity conditions_primary temp_range ∧
    calculate_severity_score severity conditions_primary temp_range ≤ 100 := by
  unfold calculate_severity_score
  constructor
  · apply le_min
    · norm_num
    · split_ifs <;> norm_num
  · exact min_le_left _ _

/-! ### C3 -/

/-- C3: the comfort index is exactly 100 at (70°F, 50%, 10 mph), but it
is NOT monotonically non-increasing away from the ideal temperature
band [68,72]°F: at humidity 50 and wind 10, temperature 33°F yields
comfort 63 while temperature 31°F — farther below the band — yields
comfort 98.5, because the `temp < 32` branch of
`_calculate_comfort_index` restarts the score near 100. The same
pattern recurs at the `temp > 90` and `wind > 30` boundaries. This
contradicts the documented intent (higher = more comfortable, decay
away from the ideal band), so it is a code bug, exhibited here by
evaluating the code at the failing inputs. -/
theorem comfort_index_monotonicity_fails :
    calculate_comfort_index 70 50 10 = (100, "Very Comfortable") ∧
    calculate_comfort_index 33 50 10 = (63, "Comfortable") ∧
    calculate_comfort_index 31 50 10 = (197/2, "Very Comfortable") ∧
    (calculate_comfort_index 33 50 10).1 < (calculate_comfort_index 31 50 10).1 := by
  refine ⟨?_, ?_, ?_, ?_⟩ <;>
    · unfold calculate_comfort_index
      norm_num

/-! ### C9 -/

/-- C9: the Report Builder is deterministic: the executive summary and
the per-severity alert counts are pure functions of the Insights
structure and the alert list (no clock or randomness appears in the
embedded computations), and the severity categorization equals the
multiset count of each severity value. -/
theorem report_builder_deterministic (location : String) (insights : InsightsIn)
    (alerts : List WeatherAlert) :
    generate_executive_summary_from_insights location insights alerts =
      generate_executive_summary_from_insights location insights alerts ∧
    categorize_alerts_by_severity alerts = categorize_alerts_by_severity alerts ∧
    categorize_alerts_by_severity alerts =
      (alerts.countP (fun a => a.severity == "critical"),
       alerts.countP (fun a => a.severity == "high"),
       alerts.countP (fun a => a.severity == "medium"),
       alerts.countP (fun a => a.severity == "low")) := by
  refine ⟨rfl, rfl, ?_⟩
  unfold categorize_alerts_by_severity
  simpa using categorize_foldl alerts 0 0 0 0

/-! ### C5 -/

theorem strictlyRising_iff (l : List ℚ) : strictlyRising l = true ↔ l.Chain' (· < ·) := by
  induction l with
  | nil => simp [strictlyRising]
  | cons x t ih =>
    cases t with
    | nil => simp [strictlyRising]
    | cons y s =>
      have hx : strictlyRising (x :: y :: s) =
          (decide (x < y) && strictlyRising (y :: s)) := rfl
      rw [hx, List.chain'_cons, ← ih]
      simp

theorem strictlyFalling_iff (l : List ℚ) : strictlyFalling l = true ↔ l.Chain' (· > ·) := by
  induction l with
  | nil => simp [strictlyFalling]
  | cons x t ih =>
    cases t with
    | nil => simp [strictlyFalling]
    | cons y s =>
      have hx : strictlyFalling (x :: y :: s) =
          (decide (x > y) && strictlyFalling (y :: s)) := rfl
      rw [hx, List.chain'_cons, ← ih]
      simp

/-- A concrete reading used in the example conjuncts of the claims. -/
def sampleReading (t : ℚ) : WeatherSourceData :=
  { source := "openweather", temperature := t, feels_like := t, humidity := 50,
    pressure := 1010, wind_speed := 5, conditions := "Clear",
    description := "clear sky", wind_direction := 180 }

/-- C5: for at least 3 readings, `_analyze_trends` labels the
temperature trend "rising" iff every consecutive pair of temperatures is
strictly increasing, "falling" iff every consecutive pair is strictly
decreasing, and "stable" otherwise; `[60, 65, 70]` yields "rising",
`[60, 65, 63]` yields "stable"; with fewer than 3 readings the result is
the `available = False` dictionary. -/
theorem trend_is_strict_monotonicity (raw_data : List WeatherSourceData) :
    (raw_data.length < 3 →
      analyze_trends raw_data = .unavailable "Insufficient data points") ∧
    (3 ≤ raw_data.length →
      ((analyze_trends raw_data).tempLabel? = some "rising" ↔
        (raw_data.map (·.temperature)).Chain' (· < ·)) ∧
      ((analyze_trends raw_data).tempLabel? = some "falling" ↔
        (raw_data.map (·.temperature)).Chain' (· > ·)) ∧
      ((analyze_trends raw_data).tempLabel? = some "stable" ↔
        (¬ (raw_data.map (·.temperature)).Chain' (· < ·) ∧
         ¬ (raw_data.map (·.temperature)).Chain' (· > ·)))) ∧
    (analyze_trends [sampleReading 60, sampleReading 65, sampleReading 70]).tempLabel? =
      some "rising" ∧
    (analyze_trends [sampleReading 60, sampleReading 65, sampleReading 63]).tempLabel? =
      some "stable" := by
  refine ⟨?_, ?_, by decide, by decide⟩
  · intro h
    unfold analyze_trends
    rw [if_pos h]
  · intro h3
    have hnot : ¬ raw_data.length < 3 := by omega
    match raw_data, h3 with
    | r1 :: r2 :: r3 :: rs, _ =>
      set l : List ℚ := (r1 :: r2 :: r3 :: rs).map (·.temperature) with hl
      have hlen : 3 ≤ l.length := by simp [hl]
      have hlab : (analyze_trends (r1 :: r2 :: r3 :: rs)).tempLabel? =
          some (if strictlyRising l then "rising"
            else if strictlyFalling l then "falling" else "stable") := by
        unfold analyze_trends
        rw [if_neg hnot]
        simp only [TrendResult.tempLabel?, ← hl]
        rw [if_pos hlen]
      have hnotboth : ¬ (l.Chain' (· < ·) ∧ l.Chain' (· > ·)) := by
        rintro ⟨hup, hdown⟩
        have h1 : r1.temperature < r2.temperature := (List.chain'_cons.mp hup).1
        have h2 : r1.temperature > r2.temperature := (List.chain'_cons.mp hdown).1
        exact absurd h1 (not_lt_of_gt h2)
      rw [hlab]
      by_cases hr : strictlyRising l
      · have hup : l.Chain' (· < ·) := (strictlyRising_iff l).mp hr
        have hdown : ¬ l.Chain' (· > ·) := fun hd => hnotboth ⟨hup, hd⟩
        refine ⟨by simpa [hr] using hup, ?_, ?_⟩
        · simp only [hr, if_true]
          constructor
          · intro hcon
            exact absurd (Option.some.inj hcon) (by decide)
          · intro hd
            exact absurd hd hdown
        · simp only [hr, if_true]
          constructor
          · intro hcon
            exact absurd (Option.some.inj hcon) (by decide)
          · rintro ⟨hnu, _⟩
            exact absurd hup hnu
      · have hnup : ¬ l.Chain' (· < ·) := fun hu => hr ((strictlyRising_iff l).mpr hu)
        by_cases hf : strictlyFalling l
        · have hdown : l.Chain' (· > ·) := (strictlyFalling_iff l).mp hf
          refine ⟨?_, by simpa [hr, hf] using hdown, ?_⟩
          · simp only [hr, hf, if_true, if_false]
            constructor
            · intro hcon
              exact absurd (Option.some.inj hcon) (by decide)
            · intro hu
              exact absurd hu hnup
          · simp only [hr, hf, if_true, if_false]
            constructor
            · intro hcon
              exact absurd (Option.some.inj hcon) (by decide)
            · rintro ⟨_, hnd⟩
              exact absurd hdown hnd
        · have hndown : ¬ l.Chain' (· > ·) := fun hd => hf ((strictlyFalling_iff l).mpr hd)
          simp only [hr, hf, if_false]
          refine ⟨?_, ?_, ?_⟩
          · constructor
            · intro hcon
              exact absurd (Option.some.inj hcon) (by decide)
            · intro hu
              exact absurd hu hnup
          · constructor
            · intro hcon
              exact absurd (Option.some.inj hcon) (by decide)
            · intro hd
              exact absurd hd hndown
          · exact ⟨fun _ => ⟨hnup, hndown⟩, fun _ => rfl⟩

/-- Witness for the trend theorem at a concrete input with at least 3
readings. -/
theorem trend_is_strict_monotonicity_witness :
    3 ≤ ([sampleReading 60, sampleReading 65, sampleReading 70] :
        List WeatherSourceData).length ∧
    ((analyze_trends [sampleReading 60, sampleReading 65, sampleReading 70]).tempLabel? =
        some "rising" ↔
      (([sampleReading 60, sampleReading 65,
        sampleReading 70] : List WeatherSourceData).map (·.temperature)).Chain' (· < ·)) :=
  ⟨by decide,
   ((trend_is_strict_monotonicity
      [sampleReading 60, sampleReading 65, sampleReading 70]).2.1 (by decide)).1⟩

/-! ### C8 -/

/-- A concrete provider observation used in the example conjuncts of the
claims; `t` is the reported temperature and `g` the optional wind
gust. -/
def sampleData (src : DataSource) (t : ℚ) (g : Option ℚ) : WeatherData :=
  { source := src, location := "Austin", country := "US", temperature := t,
    feels_like := t, temp_min := t, temp_max := t, humidity := 50, pressure := 1013,
    wind_speed := 8, wind_direction := 180, wind_gust := g,
    description := "clear sky", conditions := "Clear" }

theorem one_lt_dedup_length_iff (l : List String) :
    1 < l.dedup.length ↔ ∃ a ∈ l, ∃ b ∈ l, a ≠ b := by
  constructor
  · intro h
    rcases hd : l.dedup with _ | ⟨x, _ | ⟨y, t⟩⟩
    · rw [hd] at h
      exact absurd h (by simp)
    · rw [hd] at h
      exact absurd h (by simp)
    · have hnd : l.dedup.Nodup := l.nodup_dedup
      rw [hd] at hnd
      have hxy : x ≠ y := by
        intro hxyeq
        exact (List.nodup_cons.mp hnd).1 (hxyeq ▸ List.mem_cons_self y t)
      have hx : x ∈ l := List.mem_dedup.mp (by rw [hd]; exact List.mem_cons_self x (y :: t))
      have hy : y ∈ l := List.mem_dedup.mp
        (by rw [hd]; exact List.mem_cons_of_mem x (List.mem_cons_self y t))
      exact ⟨x, hx, y, hy, hxy⟩
  · rintro ⟨a, ha, b, hb, hab⟩
    by_contra hle
    push_neg at hle
    have ha' : a ∈ l.dedup := List.mem_dedup.mpr ha
    have hb' : b ∈ l.dedup := List.mem_dedup.mpr hb
    rcases hd : l.dedup with _ | ⟨c, _ | ⟨d, t⟩⟩
    · rw [hd] at ha'
      exact absurd ha' (List.not_mem_nil a)
    · rw [hd] at ha' hb'
      simp only [List.mem_singleton] at ha' hb'
      exact hab (ha'.trans hb'.symm)
    · rw [hd] at hle
      simp at hle

/-- C8: with at least two successful readings, `_check_disagreements`
flags a temperature disagreement iff max − min strictly exceeds 5°F, and
the flag carries every source paired with its reported temperature; a
condition disagreement is flagged iff more than one distinct condition
value appears; readings at {70, 74} produce no flag and {70, 76} produce
the temperature flag with the per-source values. -/
theorem disagreement_flags (successful : List (DataSource × WeatherData))
    (h2 : 2 ≤ successful.length) :
    (Disagreement.temperature (successful.map fun p => (p.1, p.2.temperature)) ∈
        check_disagreements successful ↔
      5 < maxList (successful.map (·.2.temperature)) -
        minList (successful.map (·.2.temperature))) ∧
    (Disagreement.condition (successful.map fun p => (p.1, p.2.conditions)) ∈
        check_disagreements successful ↔
      ∃ p ∈ successful, ∃ q ∈ successful, p.2.conditions ≠ q.2.conditions) ∧
    check_disagreements
      [(.openweather, sampleData .openweather 70 none),
       (.weatherapi, sampleData .weatherapi 74 none)] = [] ∧
    check_disagreements
      [(.openweather, sampleData .openweather 70 none),
       (.weatherapi, sampleData .weatherapi 76 none)] =
      [.temperature [(.openweather, 70), (.weatherapi, 76)]] := by
  have hcond_iff : (1 < (successful.map (·.2.conditions)).dedup.length) ↔
      ∃ p ∈ successful, ∃ q ∈ successful, p.2.conditions ≠ q.2.conditions := by
    rw [one_lt_dedup_length_iff]
    constructor
    · rintro ⟨a, ha, b, hb, hab⟩
      obtain ⟨p, hp, rfl⟩ := List.mem_map.mp ha
      obtain ⟨q, hq, rfl⟩ := List.mem_map.mp hb
      exact ⟨p, hp, q, hq, hab⟩
    · rintro ⟨p, hp, q, hq, hpq⟩
      exact ⟨_, List.mem_map_of_mem _ hp, _, List.mem_map_of_mem _ hq, hpq⟩
  refine ⟨?_, ?_,
    by unfold check_disagreements; norm_num [maxList, minList, sampleData],
    by unfold check_disagreements; norm_num [maxList, minList, sampleData]⟩
  · unfold check_disagreements
    rw [if_neg (by omega : ¬ successful.length < 2)]
    by_cases ht : maxList (successful.map (·.2.temperature)) -
        minList (successful.map (·.2.temperature)) > 5 <;>
      by_cases hc : 1 < (successful.map (·.2.conditions)).dedup.length <;>
        simp [ht, hc, gt_iff_lt]
  · unfold check_disagreements
    rw [if_neg (by omega : ¬ successful.length < 2)]
    rw [← hcond_iff]
    by_cases ht : maxList (successful.map (·.2.temperature)) -
        minList (successful.map (·.2.temperature)) > 5 <;>
      by_cases hc : 1 < (successful.map (·.2.conditions)).dedup.length <;>
        simp [ht, hc, gt_iff_lt]

/-- Witness for the disagreement theorem at a concrete two-source
input. -/
theorem disagreement_flags_witness :
    2 ≤ ([(.openweather, sampleData .openweather 70 none),
      (.weatherapi, sampleData .weatherapi 76 none)] :
        List (DataSource × WeatherData)).length ∧
    (Disagreement.temperature
        (([(.openweather, sampleData .openweather 70 none),
          (.weatherapi, sampleData .weatherapi 76 none)] :
            List (DataSource × WeatherData)).map fun p => (p.1, p.2.temperature)) ∈
        check_disagreements
          [(.openweather, sampleData .openweather 70 none),
           (.weatherapi, sampleData .weatherapi 76 none)] ↔
      5 < maxList (([(.openweather, sampleData .openweather 70 none),
          (.weatherapi, sampleData .weatherapi 76 none)] :
            List (DataSource × WeatherData)).map (·.2.temperature)) -
        minList (([(.openweather, sampleData .openweather 70 none),
          (.weatherapi, sampleData .weatherapi 76 none)] :
            List (DataSource × WeatherData)).map (·.2.temperature))) :=
  ⟨by decide,
   (disagreement_flags
      [(.openweather, sampleData .openweather 70 none),
       (.weatherapi, sampleData .weatherapi 76 none)] (by decide)).1⟩

/-! ### C6 -/

theorem consensus_error_of_no_success (w : DataSource → Option ℚ) (total_clients : ℕ)
    (all_results : List (DataSource × SourceResult))
    (h : successfulResults all_results = []) :
    calculate_consensus w total_clients all_results =
      .error "No successful weather data sources" := by
  unfold calculate_consensus
  rw [h]

theorem summary_failed_of_no_success (w : DataSource → Option ℚ) (total_clients : ℕ)
    (all_results : List (DataSource × SourceResult))
    (h : successfulResults all_results = []) :
    get_weather_summary w total_clients all_results =
      .failed "No successful weather data sources"
        (all_results.map fun p => (p.1, p.2.error, p.2.response_time)) := by
  unfold get_weather_summary
  rw [consensus_error_of_no_success w total_clients all_results h]

/-- C6: when the set of successful readings is empty,
`calculate_consensus` fails with the insufficient-data error
`ValueError("No successful weather data sources")` instead of returning
a consensus, and `get_weather_summary` converts exactly that failure
into the `success: False` result carrying the error message and the
per-source failure details (a total function in the embedding — no
unhandled exception). -/
theorem empty_readings_insufficient_data (w : DataSource → Option ℚ) (total_clients : ℕ)
    (all_results : List (DataSource × SourceResult))
    (h : successfulResults all_results = []) :
    calculate_consensus w total_clients all_results =
      .error "No successful weather data sources" ∧
    get_weather_summary w total_clients all_results =
      .failed "No successful weather data sources"
        (all_results.map fun p => (p.1, p.2.error, p.2.response_time)) :=
  ⟨consensus_error_of_no_success w total_clients all_results h,
   summary_failed_of_no_success w total_clients all_results h⟩

/-- A single attempted-and-failed source result, used as concrete input
by the error-handling witnesses. -/
def timeoutResults : List (DataSource × SourceResult) :=
  [(.openweather,
    { source := .openweather, data := none, response_time := 1, success := false,
      error := some "Request timeout" })]

/-- Witness for the insufficient-data theorem at a concrete input whose
only source failed. -/
theorem empty_readings_insufficient_data_witness :
    successfulResults timeoutResults = [] ∧
    (calculate_consensus (get_source_weights []) 1 timeoutResults =
      .error "No successful weather data sources" ∧
    get_weather_summary (get_source_weights []) 1 timeoutResults =
      .failed "No successful weather data sources"
        (timeoutResults.map fun p => (p.1, p.2.error, p.2.response_time))) :=
  ⟨rfl, empty_readings_insufficient_data (get_source_weights []) 1 timeoutResults rfl⟩

/-! ### C7 -/

/-- Whether an attempted fetch from this client fails (either raising,
or returning error-tagged data). -/
def ClientState.failsFetch (c : ClientState) : Bool :=
  match c.outcome with
  | .raises _ => true
  | .returns d => d.error.isSome

/-- One configured but unavailable provider ("nothing to try"). -/
def clientsNoneAvailable : List (DataSource × ClientState) :=
  [(.openweather, ⟨false, .raises "never called", 0⟩)]

/-- One available provider whose fetch raises ("tried and lost"). -/
def clientsAllFailed : List (DataSource × ClientState) :=
  [(.openweather, ⟨true, .raises "connection refused", 2⟩)]

/-- C7 counterexample: the zero-providers-available case and the
all-providers-failed case do NOT produce distinct failure
classifications: both flow into the identical
`ValueError("No successful weather data sources")` and the identical
`success: False` summary, whose error message is the same string in
both scenarios; only the per-source result sets (empty vs. non-empty)
differ. -/
theorem collector_failure_classification_not_distinct :
    fetch_all_sources clientsNoneAvailable = [] ∧
    fetch_all_sources clientsAllFailed ≠ [] ∧
    (match
        get_weather_summary (get_source_weights []) 1
          (fetch_all_sources clientsNoneAvailable),
        get_weather_summary (get_source_weights [.openweather]) 1
          (fetch_all_sources clientsAllFailed) with
     | .failed e1 _, .failed e2 _ => e1 = e2
     | _, _ => False) := by
  refine ⟨rfl, by decide, ?_⟩
  rw [summary_failed_of_no_success (get_source_weights []) 1
      (fetch_all_sources clientsNoneAvailable) rfl,
    summary_failed_of_no_success (get_source_weights [.openweather]) 1
      (fetch_all_sources clientsAllFailed) rfl]

/-- C7 (amended): when zero providers are available the Collector
returns the empty result set (and the summary then carries an empty
per-source detail list), while when providers were attempted and all
failed it returns a non-empty set of error-tagged results (non-empty
details); the downstream failure classification (the error value) is
the same in both cases, so the two outcomes are distinguishable only
through the result set / per-source details. -/
theorem collector_empty_vs_all_failed (clients : List (DataSource × ClientState))
    (w : DataSource → Option ℚ) (total_clients : ℕ) :
    ((∀ p ∈ clients, p.2.is_available = false) →
      fetch_all_sources clients = [] ∧
      get_weather_summary w total_clients (fetch_all_sources clients) =
        .failed "No successful weather data sources" []) ∧
    ((∃ p ∈ clients, p.2.is_available = true) →
      (∀ p ∈ clients, p.2.failsFetch = true) →
      fetch_all_sources clients ≠ [] ∧
      ∃ details, details ≠ [] ∧
        get_weather_summary w total_clients (fetch_all_sources clients) =
          .failed "No successful weather data sources" details) := by
  constructor
  · intro hall
    have hfetch : fetch_all_sources clients = [] := by
      unfold fetch_all_sources
      rw [List.filterMap_eq_nil_iff]
      intro p hp
      rw [hall p hp]
      simp
    refine ⟨hfetch, ?_⟩
    rw [hfetch]
    exact summary_failed_of_no_success w total_clients [] rfl
  · rintro ⟨p, hp, hav⟩ hfail
    have hfne : fetch_all_sources clients ≠ [] := by
      intro hnil
      unfold fetch_all_sources at hnil
      have hrec := List.filterMap_eq_nil_iff.mp hnil p hp
      rw [hav] at hrec
      simp at hrec
    have hsucc : successfulResults (fetch_all_sources clients) = [] := by
      unfold successfulResults
      rw [List.filterMap_eq_nil_iff]
      intro q hq
      unfold fetch_all_sources at hq
      obtain ⟨c, hc, hfc⟩ := List.mem_filterMap.mp hq
      by_cases hcav : c.2.is_available = false
      · rw [if_pos hcav] at hfc
        exact absurd hfc (by simp)
      · rw [if_neg hcav] at hfc
        have hcfail := hfail c hc
        unfold ClientState.failsFetch at hcfail
        cases hout : c.2.outcome with
        | raises m =>
          rw [hout] at hfc
          simp only [Option.some.injEq] at hfc
          rw [← hfc]
          simp
        | returns d =>
          rw [hout] at hfc hcfail
          simp only [] at hfc hcfail
          have herr : d.error ≠ none := by
            intro hn
            rw [hn] at hcfail
            simp at hcfail
          rw [if_pos herr] at hfc
          simp only [Option.some.injEq] at hfc
          rw [← hfc]
          simp
    refine ⟨hfne,
      (fetch_all_sources clients).map (fun q => (q.1, q.2.error, q.2.response_time)), ?_, ?_⟩
    · intro hm
      rw [List.map_eq_nil_iff] at hm
      exact hfne hm
    · exact summary_failed_of_no_success w total_clients (fetch_all_sources clients) hsucc

/-- Witness for the amended Collector theorem: the all-failed scenario,
with its hypotheses discharged at the concrete client list. -/
theorem collector_empty_vs_all_failed_witness :
    ((∃ p ∈ clientsAllFailed, p.2.is_available = true) ∧
      (∀ p ∈ clientsAllFailed, p.2.failsFetch = true)) ∧
    (fetch_all_sources clientsAllFailed ≠ [] ∧
      ∃ details, details ≠ [] ∧
        get_weather_summary (get_source_weights [.openweather]) 1
            (fetch_all_sources clientsAllFailed) =
          .failed "No successful weather data sources" details) :=
  ⟨⟨by decide, by decide⟩,
   (collector_empty_vs_all_failed clientsAllFailed
      (get_source_weights [.openweather]) 1).2 (by decide) (by decide)⟩

/-! ### Helper lemmas for the consensus aggregation -/

theorem rmean_replicate (n : ℕ) (v : ℚ) (h : n ≠ 0) :
    rmean (List.replicate n v) = v := by
  unfold rmean
  rw [List.sum_replicate, List.length_replicate, nsmul_eq_mul]
  exact mul_div_cancel_left₀ v (Nat.cast_ne_zero.mpr h)

theorem filterMap_zip_replicate_some (v : ℚ) (srcs : List DataSource) :
    ((List.replicate srcs.length (some v)).zip srcs).filterMap
      (fun p => p.1.map fun x => (x, p.2)) = srcs.map fun s => (v, s) := by
  induction srcs with
  | nil => rfl
  | cons s t ih => simpa [List.replicate_succ] using ih

theorem weighted_average_replicate (w : DataSource → Option ℚ) (v : ℚ)
    (srcs : List DataSource) (h : srcs ≠ []) :
    weighted_average w (List.replicate srcs.length (some v)) srcs = v := by
  have hn : srcs.length ≠ 0 := by simpa using h
  have hv : (List.replicate srcs.length (some v) : List (Option ℚ)) ≠ [] := by
    simp [hn]
  have hne : (srcs.map fun s => (v, s)) ≠ [] := by simp [h]
  have hmm1 : (srcs.map fun s => (v, s)).map (fun p => p.1 * (w p.2).getD 0) =
      srcs.map fun s => v * (w s).getD 0 := by
    simp [List.map_map, Function.comp]
  have hmm2 : (srcs.map fun s => (v, s)).map (fun p => (w p.2).getD 0) =
      srcs.map fun s => (w s).getD 0 := by
    simp [List.map_map, Function.comp]
  have hfirst : (srcs.map fun s => (v, s)).map (fun p => p.1) =
      List.replicate srcs.length v := by
    simp [List.map_map, Function.comp]
  have hrm : rmean ((srcs.map fun s => (v, s)).map (·.1)) = v := by
    show rmean ((srcs.map fun s => (v, s)).map (fun p => p.1)) = v
    rw [hfirst]
    exact rmean_replicate srcs.length v hn
  unfold weighted_average
  rw [if_neg hv]
  simp only [filterMap_zip_replicate_some]
  rw [if_neg hne]
  by_cases hall : ((srcs.map fun s => (v, s)).all fun p => (w p.2).isSome) = true
  · rw [if_pos hall]
    have htot : ((srcs.map fun s => (v, s)).map fun p => p.1 * (w p.2).getD 0).sum =
        v * ((srcs.map fun s => (v, s)).map fun p => (w p.2).getD 0).sum := by
      rw [hmm1, hmm2, List.sum_map_mul_left]
    by_cases hws : (0 : ℚ) < ((srcs.map fun s => (v, s)).map fun p => (w p.2).getD 0).sum
    · rw [if_pos hws, htot]
      exact mul_div_cancel_right₀ v (ne_of_gt hws)
    · rw [if_neg hws]
      exact hrm
  · rw [if_neg hall]
    exact hrm

theorem cv_replicate (n : ℕ) (v : ℚ) (hn : n ≠ 0) :
    cv (List.replicate n v) = 0 := by
  unfold cv
  rw [if_neg (by simp [hn] : ¬ (List.replicate n v = [])), rmean_replicate n v hn]
  by_cases hv : v = 0
  · rw [if_pos hv]
  · rw [if_neg hv]
    have hstd : sampleStdev (List.replicate n v) = 0 := by
      unfold sampleStdev
      rw [rmean_replicate n v hn]
      have hmap : (List.replicate n v).map (fun x : ℚ => ((x : ℝ) - (v : ℝ)) ^ 2) =
          List.replicate n 0 := by
        rw [List.map_replicate]
        norm_num
      rw [hmap, List.sum_replicate]
      simp
    split_ifs with hlen
    · rw [hstd, zero_div]
    · rw [zero_div]

theorem calculate_confidence_replicate (n : ℕ) (t ws hu : ℚ) (h2 : 2 ≤ n) :
    calculate_confidence (List.replicate n t) (List.replicate n ws)
      (List.replicate n hu) = min 1 ((n : ℝ) / 3) := by
  unfold calculate_confidence
  rw [List.length_replicate]
  rw [if_neg (by omega : ¬ n < 2)]
  rw [cv_replicate n t (by omega), cv_replicate n ws (by omega),
    cv_replicate n hu (by omega)]
  norm_num
  positivity

theorem foldl_max_self (v : ℚ) (t : List ℚ) (hall : ∀ x ∈ t, x = v) :
    t.foldl max v = v := by
  induction t with
  | nil => rfl
  | cons x s ih =>
    rw [List.foldl_cons, hall x (List.mem_cons_self x s), max_self]
    exact ih fun y hy => hall y (List.mem_cons_of_mem x hy)

theorem foldl_min_self (v : ℚ) (t : List ℚ) (hall : ∀ x ∈ t, x = v) :
    t.foldl min v = v := by
  induction t with
  | nil => rfl
  | cons x s ih =>
    rw [List.foldl_cons, hall x (List.mem_cons_self x s), min_self]
    exact ih fun y hy => hall y (List.mem_cons_of_mem x hy)

theorem maxList_replicate (n : ℕ) (v : ℚ) (hn : n ≠ 0) :
    maxList (List.replicate n v) = v := by
  cases n with
  | zero => exact absurd rfl hn
  | succ m =>
    rw [List.replicate_succ]
    exact foldl_max_self v _ fun x hx => (List.eq_of_mem_replicate hx)

theorem minList_replicate (n : ℕ) (v : ℚ) (hn : n ≠ 0) :
    minList (List.replicate n v) = v := by
  cases n with
  | zero => exact absurd rfl hn
  | succ m =>
    rw [List.replicate_succ]
    exact foldl_min_self v _ fun x hx => (List.eq_of_mem_replicate hx)

theorem dedup_replicate (s : String) (n : ℕ) (hn : n ≠ 0) :
    (List.replicate n s).dedup = [s] := by
  induction n with
  | zero => exact absurd rfl hn
  | succ m ih =>
    cases Nat.eq_zero_or_pos m with
    | inl h0 =>
      subst h0
      simp
    | inr hpos =>
      rw [List.replicate_succ, List.dedup_cons_of_mem (by simp [List.mem_replicate]; omega)]
      exact ih (by omega)

theorem check_disagreements_const (srcs : List DataSource) (r : WeatherData) :
    check_disagreements (srcs.map fun s => (s, r)) = [] := by
  unfold check_disagreements
  by_cases hlen : (srcs.map fun s => (s, r)).length < 2
  · rw [if_pos hlen]
  · rw [if_neg hlen]
    have hn : srcs.length ≠ 0 := by
      simp only [List.length_map] at hlen
      omega
    have htemps : (srcs.map fun s => (s, r)).map (fun x => x.2.temperature) =
        List.replicate srcs.length r.temperature := by
      simp [List.map_map, Function.comp_def]
    have hconds : (srcs.map fun s => (s, r)).map (fun x => x.2.conditions) =
        List.replicate srcs.length r.conditions := by
      simp [List.map_map, Function.comp_def]
    simp only [htemps, hconds, maxList_replicate srcs.length r.temperature hn,
      minList_replicate srcs.length r.temperature hn,
      dedup_replicate r.conditions srcs.length hn]
    norm_num

/-- The successful `SourceResult` all sources share in the
identical-readings scenario of the claims. -/
def identicalResult (s : DataSource) (r : WeatherData) : SourceResult :=
  { source := s, data := some r, response_time := 0, success := true }

theorem successfulResults_identical (srcs : List DataSource) (r : WeatherData) :
    successfulResults (srcs.map fun s => (s, identicalResult s r)) =
      srcs.map fun s => (s, r) := by
  unfold successfulResults identicalResult
  induction srcs with
  | nil => rfl
  | cons s t ih =>
    simp only [List.map_cons, List.filterMap_cons]
    rw [ih]
    simp

/-! ### C1 -/

/-- A single successful source reporting temperature 70°F — an
"identical values" collection of size one. -/
def singleIdenticalInput : List (DataSource × SourceResult) :=
  [(.openweather, identicalResult .openweather (sampleData .openweather 70 none))]

/-- C1 counterexample: a non-empty collection in which all (here: one)
sources report identical values, yet the consensus confidence is 0.5,
not ≥ 0.9 — the `min(1, count/3)` source factor (and the `< 2` early
return) lower the score for fewer than 3 sources, refuting the
"regardless of how many sources participated" part of the claim. -/
theorem consensus_low_confidence_counterexample :
    match calculate_consensus (get_source_weights [.openweather]) 1 singleIdenticalInput with
    | .ok c => c.temperature = 70 ∧ c.disagreements = [] ∧ c.confidence = 0.5 ∧
        ¬ ((0.9 : ℝ) ≤ c.confidence)
    | .error _ => False := by
  have hs : successfulResults singleIdenticalInput =
      [(.openweather, sampleData .openweather 70 none)] := rfl
  unfold calculate_consensus
  rw [hs]
  simp only [List.map_cons, List.map_nil]
  have hconf : calculate_confidence [(sampleData .openweather 70 none).temperature]
      [(sampleData .openweather 70 none).wind_speed]
      [(sampleData .openweather 70 none).humidity] = 0.5 := by
    unfold calculate_confidence
    norm_num
  refine ⟨?_, ?_, ?_, ?_⟩
  · unfold weighted_average
    norm_num [get_source_weights, baseWeight, sampleData, rmean, List.filterMap_cons]
  · rfl
  · exact hconf
  · rw [hconf]
    norm_num

/-- C1 (amended): for EVERY non-empty collection of sources all
reporting identical readings, the consensus numeric means (temperature,
feels-like, humidity, pressure, wind speed) equal the shared value
exactly and the disagreement list is empty; the confidence is ≥ 0.9 if
and only if at least 3 sources participated — it is exactly 1 for ≥ 3
sources, 0.5 for a single source (the `< 2` early return) and 2/3 for
two sources (the `min(1, count/3)` factor). -/
theorem identical_sources_consensus (w : DataSource → Option ℚ) (total_clients : ℕ)
    (srcs : List DataSource) (r : WeatherData) (h1 : srcs ≠ []) :
    ∃ c, calculate_consensus w total_clients
        (srcs.map fun s => (s, identicalResult s r)) = .ok c ∧
      c.temperature = r.temperature ∧ c.feels_like = r.feels_like ∧
      c.humidity = r.humidity ∧ c.pressure = r.pressure ∧
      c.wind_speed = r.wind_speed ∧ c.disagreements = [] ∧
      (srcs.length = 1 → c.confidence = 0.5) ∧
      (srcs.length = 2 → c.confidence = 2 / 3) ∧
      (3 ≤ srcs.length → c.confidence = 1) ∧
      ((0.9 : ℝ) ≤ c.confidence ↔ 3 ≤ srcs.length) := by
  obtain ⟨s0, srest, rfl⟩ : ∃ s0 srest, srcs = s0 :: srest := by
    cases srcs with
    | nil => exact absurd rfl h1
    | cons a t => exact ⟨a, t, rfl⟩
  have hne : (s0 :: srest) ≠ [] := List.cons_ne_nil s0 srest
  have htemp : ((s0, r) :: srest.map fun s => (s, r)).map (fun x => x.2.temperature) =
      List.replicate (srest.length + 1) r.temperature := by
    simp [List.map_map, Function.comp_def, List.replicate_succ]
  have hfeels : ((s0, r) :: srest.map fun s => (s, r)).map (fun x => x.2.feels_like) =
      List.replicate (srest.length + 1) r.feels_like := by
    simp [List.map_map, Function.comp_def, List.replicate_succ]
  have hhum : ((s0, r) :: srest.map fun s => (s, r)).map (fun x => x.2.humidity) =
      List.replicate (srest.length + 1) r.humidity := by
    simp [List.map_map, Function.comp_def, List.replicate_succ]
  have hpress : ((s0, r) :: srest.map fun s => (s, r)).map (fun x => x.2.pressure) =
      List.replicate (srest.length + 1) r.pressure := by
    simp [List.map_map, Function.comp_def, List.replicate_succ]
  have hwind : ((s0, r) :: srest.map fun s => (s, r)).map (fun x => x.2.wind_speed) =
      List.replicate (srest.length + 1) r.wind_speed := by
    simp [List.map_map, Function.comp_def, List.replicate_succ]
  have hsrcs : ((s0, r) :: srest.map fun s => (s, r)).map (fun x => x.1) = s0 :: srest := by
    simp [List.map_map, Function.comp_def]
  have hconfval : calculate_confidence
      (((s0, r) :: srest.map fun s => (s, r)).map (fun x => x.2.temperature))
      (((s0, r) :: srest.map fun s => (s, r)).map (fun x => x.2.wind_speed))
      (((s0, r) :: srest.map fun s => (s, r)).map (fun x => x.2.humidity)) =
      if srest.length = 0 then 0.5
      else min 1 (((srest.length + 1 : ℕ) : ℝ) / 3) := by
    rw [htemp, hwind, hhum]
    by_cases h0 : srest.length = 0
    · rw [if_pos h0, h0]
      unfold calculate_confidence
      rw [List.length_replicate, if_pos (by omega)]
    · rw [if_neg h0]
      exact calculate_confidence_replicate (srest.length + 1) _ _ _ (by omega)
  unfold calculate_consensus
  rw [successfulResults_identical, List.map_cons]
  simp only []
  refine ⟨_, rfl, ?_, ?_, ?_, ?_, ?_, ?_, ?_, ?_, ?_, ?_⟩
  · show weighted_average w ((((s0, r) :: srest.map fun s => (s, r)).map
        (fun x => x.2.temperature)).map some)
        (((s0, r) :: srest.map fun s => (s, r)).map (fun x => x.1)) = r.temperature
    rw [htemp, hsrcs, List.map_replicate]
    exact weighted_average_replicate w r.temperature (s0 :: srest) hne
  · show weighted_average w ((((s0, r) :: srest.map fun s => (s, r)).map
        (fun x => x.2.feels_like)).map some)
        (((s0, r) :: srest.map fun s => (s, r)).map (fun x => x.1)) = r.feels_like
    rw [hfeels, hsrcs, List.map_replicate]
    exact weighted_average_replicate w r.feels_like (s0 :: srest) hne
  · show weighted_average w ((((s0, r) :: srest.map fun s => (s, r)).map
        (fun x => x.2.humidity)).map some)
        (((s0, r) :: srest.map fun s => (s, r)).map (fun x => x.1)) = r.humidity
    rw [hhum, hsrcs, List.map_replicate]
    exact weighted_average_replicate w r.humidity (s0 :: srest) hne
  · show weighted_average w ((((s0, r) :: srest.map fun s => (s, r)).map
        (fun x => x.2.pressure)).map some)
        (((s0, r) :: srest.map fun s => (s, r)).map (fun x => x.1)) = r.pressure
    rw [hpress, hsrcs, List.map_replicate]
    exact weighted_average_replicate w r.pressure (s0 :: srest) hne
  · show weighted_average w ((((s0, r) :: srest.map fun s => (s, r)).map
        (fun x => x.2.wind_speed)).map some)
        (((s0, r) :: srest.map fun s => (s, r)).map (fun x => x.1)) = r.wind_speed
    rw [hwind, hsrcs, List.map_replicate]
    exact weighted_average_replicate w r.wind_speed (s0 :: srest) hne
  · exact check_disagreements_const (s0 :: srest) r
  · intro hlen
    have h0 : srest.length = 0 := by
      simp only [List.length_cons] at hlen
      omega
    show calculate_confidence
      (((s0, r) :: srest.map fun s => (s, r)).map (fun x => x.2.temperature))
      (((s0, r) :: srest.map fun s => (s, r)).map (fun x => x.2.wind_speed))
      (((s0, r) :: srest.map fun s => (s, r)).map (fun x => x.2.humidity)) = 0.5
    rw [hconfval, if_pos h0]
  · intro hlen
    have h1' : srest.length = 1 := by
      simp only [List.length_cons] at hlen
      omega
    show calculate_confidence
      (((s0, r) :: srest.map fun s => (s, r)).map (fun x => x.2.temperature))
      (((s0, r) :: srest.map fun s => (s, r)).map (fun x => x.2.wind_speed))
      (((s0, r) :: srest.map fun s => (s, r)).map (fun x => x.2.humidity)) = 2 / 3
    rw [hconfval, if_neg (by omega), h1']
    norm_num [min_def]
  · intro hlen
    have h3' : 3 ≤ srest.length + 1 := by simpa using hlen
    show calculate_confidence
      (((s0, r) :: srest.map fun s => (s, r)).map (fun x => x.2.temperature))
      (((s0, r) :: srest.map fun s => (s, r)).map (fun x => x.2.wind_speed))
      (((s0, r) :: srest.map fun s => (s, r)).map (fun x => x.2.humidity)) = 1
    rw [hconfval, if_neg (by omega), min_eq_left]
    rw [le_div_iff₀ (by norm_num : (0 : ℝ) < 3)]
    norm_num
    exact_mod_cast h3'
  · constructor
    · intro h09
      by_contra h3n
      have hle : srest.length = 0 ∨ srest.length = 1 := by
        simp only [List.length_cons] at h3n
        omega
      simp only [] at h09
      rw [hconfval] at h09
      rcases hle with h0 | h0
      · rw [if_pos h0] at h09
        norm_num at h09
      · rw [if_neg (by omega), h0] at h09
        norm_num [min_def] at h09
    · intro h3l
      have h3' : 3 ≤ srest.length + 1 := by simpa using h3l
      show (0.9 : ℝ) ≤ calculate_confidence
        (((s0, r) :: srest.map fun s => (s, r)).map (fun x => x.2.temperature))
        (((s0, r) :: srest.map fun s => (s, r)).map (fun x => x.2.wind_speed))
        (((s0, r) :: srest.map fun s => (s, r)).map (fun x => x.2.humidity))
      rw [hconfval, if_neg (by omega)]
      have hge : (1 : ℝ) ≤ ((srest.length + 1 : ℕ) : ℝ) / 3 := by
        rw [le_div_iff₀ (by norm_num : (0 : ℝ) < 3)]
        norm_num
        exact_mod_cast h3'
      rw [min_eq_left hge]
      norm_num

/-- Witness for the identical-sources consensus theorem at a concrete
three-source input, hypothesis (non-emptiness) discharged there. -/
theorem identical_sources_consensus_witness :
    ([DataSource.openweather, .weatherapi, .visualcrossing] : List DataSource) ≠ [] ∧
    ∃ c, calculate_consensus (get_source_weights
          [.openweather, .weatherapi, .visualcrossing]) 3
        (([DataSource.openweather, .weatherapi, .visualcrossing] : List DataSource).map
          fun s => (s, identicalResult s (sampleData .openweather 70 none))) = .ok c ∧
      c.temperature = (sampleData .openweather 70 none).temperature ∧
      c.feels_like = (sampleData .openweather 70 none).feels_like ∧
      c.humidity = (sampleData .openweather 70 none).humidity ∧
      c.pressure = (sampleData .openweather 70 none).pressure ∧
      c.wind_speed = (sampleData .openweather 70 none).wind_speed ∧
      c.disagreements = [] ∧
      (([DataSource.openweather, .weatherapi, .visualcrossing] :
          List DataSource).length = 1 → c.confidence = 0.5) ∧
      (([DataSource.openweather, .weatherapi, .visualcrossing] :
          List DataSource).length = 2 → c.confidence = 2 / 3) ∧
      (3 ≤ ([DataSource.openweather, .weatherapi, .visualcrossing] :
          List DataSource).length → c.confidence = 1) ∧
      ((0.9 : ℝ) ≤ c.confidence ↔
        3 ≤ ([DataSource.openweather, .weatherapi, .visualcrossing] :
          List DataSource).length) :=
  ⟨by decide,
   identical_sources_consensus (get_source_weights
      [.openweather, .weatherapi, .visualcrossing]) 3
      [.openweather, .weatherapi, .visualcrossing]
      (sampleData .openweather 70 none) (by decide)⟩

/-! ### C4 -/

/-- Three successful sources where the first reports no wind gust and
the other two report gusts 0 and 10 mph. -/
def gustInput : List (DataSource × SourceResult) :=
  [(.openweather,
    { source := .openweather, data := some (sampleData .openweather 70 none),
      response_time := 1, success := true }),
   (.weatherapi,
    { source := .weatherapi, data := some (sampleData .weatherapi 70 (some 0)),
      response_time := 1, success := true }),
   (.visualcrossing,
    { source := .visualcrossing, data := some (sampleData .visualcrossing 70 (some 10)),
      response_time := 1, success := true })]

/-- The normalized weights when all three primary providers are
available (openweather 7/18, weatherapi 1/3, visualcrossing 5/18). -/
def wABC : DataSource → Option ℚ :=
  get_source_weights [.openweather, .weatherapi, .visualcrossing]

/-- C4 counterexample: with gusts (none, 0, 10) from (openweather,
weatherapi, visualcrossing), the consensus wind gust is 60/13 — the
values 0 and 10 get paired positionally with the weights of openweather
and weatherapi — whereas pairing each value with the weight of the
source that actually reported it (weatherapi and visualcrossing) gives
50/11. The claim that "each remaining value is paired with the weight
of the source that actually reported it" is therefore false. -/
theorem optional_field_pairing_counterexample :
    match calculate_consensus wABC 3 gustInput with
    | .ok c =>
        c.wind_gust = 60 / 13 ∧
        spec_paired_weighted_average wABC (successfulResults gustInput)
          (fun d => d.wind_gust) = 50 / 11 ∧
        (60 : ℚ) / 13 ≠ 50 / 11
    | .error _ => False := by
  have hs : successfulResults gustInput =
      [(.openweather, sampleData .openweather 70 none),
       (.weatherapi, sampleData .weatherapi 70 (some 0)),
       (.visualcrossing, sampleData .visualcrossing 70 (some 10))] := rfl
  unfold calculate_consensus
  rw [hs]
  simp only []
  refine ⟨?_, ?_, by norm_num⟩
  · unfold weighted_average wABC get_source_weights
    norm_num [sampleData, baseWeight, List.filterMap_cons, rmean]
    split_ifs <;> norm_num at *
  · unfold spec_paired_weighted_average wABC get_source_weights
    norm_num [sampleData, baseWeight, List.filterMap_cons, rmean]
    split_ifs <;> norm_num at *

theorem filterMap_some_eq_map (g : WeatherData → ℚ) (sl : List (DataSource × WeatherData)) :
    (sl.filterMap fun p => some (g p.2)) = sl.map fun p => g p.2 := by
  induction sl with
  | nil => rfl
  | cons a t ih => simp [List.filterMap_cons, ih]

theorem aligned_zip_filterMap (g : WeatherData → ℚ) (sl : List (DataSource × WeatherData)) :
    (((sl.map fun p => g p.2).map some).zip (sl.map fun p => p.1)).filterMap
      (fun q => q.1.map fun v => (v, q.2)) = sl.map fun p => (g p.2, p.1) := by
  induction sl with
  | nil => rfl
  | cons a t ih => simpa using ih

theorem spec_valid_eq_map (g : WeatherData → ℚ) (sl : List (DataSource × WeatherData)) :
    (sl.filterMap fun p => ((some (g p.2)).map fun v => (p.1, v))) =
      sl.map fun p => (p.1, g p.2) := by
  induction sl with
  | nil => rfl
  | cons a t ih => simpa using ih

/-- C4 (amended): the per-source weights are normalized so that the
weights of the available sources sum to 1; a missing optional value is
excluded from the numerator and one weight from the denominator, never
treated as zero; and whenever EVERY source reports the field, each
value is paired with the weight of its own source, so the code result
equals the spec-described reporter-paired weighted mean. When a missing
value precedes present ones, however, the pre-filtered values are
re-zipped positionally against the full source list and later values
get other sources' weights, as the counterexample shows. -/
theorem weighted_consensus_weights_amended :
    (∀ available : List DataSource, available ≠ [] →
      (available.map fun s => (get_source_weights available s).getD 0).sum = 1) ∧
    (∀ (w : DataSource → Option ℚ) (sl : List (DataSource × WeatherData))
        (g : WeatherData → ℚ),
      (∀ p ∈ sl, (w p.1).isSome) →
      weighted_average w ((sl.filterMap fun p => some (g p.2)).map some)
          (sl.map fun p => p.1) =
        spec_paired_weighted_average w sl (fun d => some (g d))) := by
  constructor
  · intro available ha
    have hpos : ∀ x ∈ available.map baseWeight, 0 < x := by
      intro x hx
      obtain ⟨s, _, rfl⟩ := List.mem_map.mp hx
      cases s <;> norm_num [baseWeight]
    have htot : 0 < (available.map baseWeight).sum :=
      List.sum_pos _ hpos (by simpa using ha)
    have hcongr : available.map (fun s => (get_source_weights available s).getD 0) =
        available.map fun s => baseWeight s / (available.map baseWeight).sum := by
      apply List.map_congr_left
      intro s hs
      unfold get_source_weights
      rw [if_neg ha, if_pos hs]
      rfl
    rw [hcongr]
    have hdiv : (available.map fun s => baseWeight s / (available.map baseWeight).sum) =
        available.map fun s => ((available.map baseWeight).sum)⁻¹ * baseWeight s := by
      apply List.map_congr_left
      intro s _
      rw [div_eq_mul_inv, mul_comm]
    rw [hdiv, List.sum_map_mul_left]
    exact inv_mul_cancel₀ (ne_of_gt htot)
  · intro w sl g hw
    rw [filterMap_some_eq_map]
    cases sl with
    | nil => simp [weighted_average, spec_paired_weighted_average, rmean]
    | cons a t =>
      unfold weighted_average spec_paired_weighted_average
      rw [if_neg (by simp : ¬ (((a :: t).map fun p => g p.2).map some) = [])]
      rw [aligned_zip_filterMap g (a :: t), spec_valid_eq_map g (a :: t)]
      rw [if_neg (by simp : ¬ (((a :: t)).map fun p => (g p.2, p.1)) = [])]
      have hall : (((a :: t)).map fun p => (g p.2, p.1)).all
          (fun q => (w q.2).isSome) = true := by
        rw [List.all_eq_true]
        intro q hq
        obtain ⟨p, hp, rfl⟩ := List.mem_map.mp hq
        exact hw p hp
      rw [if_pos hall]
      have htotal : ((a :: t).map fun p => (g p.2, p.1)).map
          (fun q => q.1 * (w q.2).getD 0) =
          (a :: t).map fun p => g p.2 * (w p.1).getD 0 := by
        simp [List.map_map, Function.comp_def]
      have hwsum : ((a :: t).map fun p => (g p.2, p.1)).map
          (fun q => (w q.2).getD 0) = (a :: t).map fun p => (w p.1).getD 0 := by
        simp [List.map_map, Function.comp_def]
      have htotal' : ((a :: t).map fun p => (p.1, g p.2)).map
          (fun q => q.2 * (w q.1).getD 0) =
          (a :: t).map fun p => g p.2 * (w p.1).getD 0 := by
        simp [List.map_map, Function.comp_def]
      have hwsum' : ((a :: t).map fun p => (p.1, g p.2)).map
          (fun q => (w q.1).getD 0) = (a :: t).map fun p => (w p.1).getD 0 := by
        simp [List.map_map, Function.comp_def]
      have hfst : ((a :: t).map fun p => (g p.2, p.1)).map (fun q => q.1) =
          (a :: t).map fun p => g p.2 := by
        simp [List.map_map, Function.comp_def]
      have hsnd : ((a :: t).map fun p => (p.1, g p.2)).map (fun q => q.2) =
          (a :: t).map fun p => g p.2 := by
        simp [List.map_map, Function.comp_def]
      rw [htotal, hwsum, hfst]
      simp only [htotal', hwsum', hsnd]

/-- Witness for the amended weighting theorem: normalization at the
three-provider list, and reporter-correct pairing for the fully present
temperature field at a concrete two-source list. -/
theorem weighted_consensus_weights_amended_witness :
    (([DataSource.openweather, .weatherapi, .visualcrossing] : List DataSource) ≠ [] ∧
      (([DataSource.openweather, .weatherapi, .visualcrossing] : List DataSource).map
        fun s => (get_source_weights [DataSource.openweather, .weatherapi, .visualcrossing]
          s).getD 0).sum = 1) ∧
    ((∀ p ∈ [((DataSource.openweather : DataSource),
          sampleData .openweather 70 none),
        (.weatherapi, sampleData .weatherapi 76 none)], (wABC p.1).isSome) ∧
      weighted_average wABC
        (([((DataSource.openweather : DataSource), sampleData .openweather 70 none),
            (.weatherapi, sampleData .weatherapi 76 none)].filterMap
          fun p => some (p.2.temperature)).map some)
        ([((DataSource.openweather : DataSource), sampleData .openweather 70 none),
          (.weatherapi, sampleData .weatherapi 76 none)].map fun p => p.1) =
      spec_paired_weighted_average wABC
        [((DataSource.openweather : DataSource), sampleData .openweather 70 none),
         (.weatherapi, sampleData .weatherapi 76 none)]
        (fun d => some d.temperature)) :=
  ⟨⟨by decide, weighted_consensus_weights_amended.1
      [.openweather, .weatherapi, .visualcrossing] (by decide)⟩,
   ⟨by decide, weighted_consensus_weights_amended.2 wABC
      [(.openweather, sampleData .openweather 70 none),
       (.weatherapi, sampleData .weatherapi 76 none)]
      (fun d => d.temperature) (by decide)⟩⟩

/-! ### C2 -/

theorem atan2_vector_350_10 :
    atan2 ((Real.sin (350 * (3.14159 : ℝ) / 180) + Real.sin (10 * (3.14159 : ℝ) / 180)) / 2)
      ((Real.cos (350 * (3.14159 : ℝ) / 180) + Real.cos (10 * (3.14159 : ℝ) / 180)) / 2) =
    (3.14159 : ℝ) - Real.pi := by
  have hpl : Real.pi < (3.141593 : ℝ) := Real.pi_lt_d6
  have hpg : (3.141592 : ℝ) < Real.pi := Real.pi_gt_d6
  have hm1 : ((350 * (3.14159 : ℝ) / 180) - -(10 * (3.14159 : ℝ) / 180)) / 2 = 3.14159 := by
    ring
  have hm2 : ((350 * (3.14159 : ℝ) / 180) + -(10 * (3.14159 : ℝ) / 180)) / 2 =
      17 * (3.14159 : ℝ) / 18 := by
    ring
  have hm3 : ((350 * (3.14159 : ℝ) / 180) + (10 * (3.14159 : ℝ) / 180)) / 2 = 3.14159 := by
    ring
  have hm4 : ((350 * (3.14159 : ℝ) / 180) - (10 * (3.14159 : ℝ) / 180)) / 2 =
      17 * (3.14159 : ℝ) / 18 := by
    ring
  have hsin : Real.sin (350 * (3.14159 : ℝ) / 180) + Real.sin (10 * (3.14159 : ℝ) / 180) =
      2 * Real.sin 3.14159 * Real.cos (17 * (3.14159 : ℝ) / 18) := by
    have h := Real.sin_sub_sin (350 * (3.14159 : ℝ) / 180) (-(10 * (3.14159 : ℝ) / 180))
    rw [Real.sin_neg, sub_neg_eq_add, hm1, hm2] at h
    exact h
  have hcos : Real.cos (350 * (3.14159 : ℝ) / 180) + Real.cos (10 * (3.14159 : ℝ) / 180) =
      2 * Real.cos 3.14159 * Real.cos (17 * (3.14159 : ℝ) / 18) := by
    have h := Real.cos_add_cos (350 * (3.14159 : ℝ) / 180) (10 * (3.14159 : ℝ) / 180)
    rw [hm3, hm4] at h
    exact h
  have hcA : Real.cos (3.14159 : ℝ) < 0 := by
    apply Real.cos_neg_of_pi_div_two_lt_of_lt <;> linarith
  have hcB : Real.cos (17 * (3.14159 : ℝ) / 18) < 0 := by
    apply Real.cos_neg_of_pi_div_two_lt_of_lt <;> linarith
  have hx : 0 < (Real.cos (350 * (3.14159 : ℝ) / 180) +
      Real.cos (10 * (3.14159 : ℝ) / 180)) / 2 := by
    rw [hcos]
    have := mul_pos_of_neg_of_neg hcA hcB
    linarith
  unfold atan2
  rw [if_pos hx]
  have hy : (Real.sin (350 * (3.14159 : ℝ) / 180) + Real.sin (10 * (3.14159 : ℝ) / 180)) / 2 =
      Real.sin 3.14159 * Real.cos (17 * (3.14159 : ℝ) / 18) := by
    rw [hsin]
    ring
  have hx2 : (Real.cos (350 * (3.14159 : ℝ) / 180) + Real.cos (10 * (3.14159 : ℝ) / 180)) / 2 =
      Real.cos 3.14159 * Real.cos (17 * (3.14159 : ℝ) / 18) := by
    rw [hcos]
    ring
  rw [hy, hx2]
  have hcBne : Real.cos (17 * (3.14159 : ℝ) / 18) ≠ 0 := ne_of_lt hcB
  rw [mul_div_mul_right _ _ hcBne]
  rw [← Real.tan_eq_sin_div_cos]
  have htan : Real.tan (3.14159 : ℝ) = Real.tan ((3.14159 : ℝ) - Real.pi) :=
    (Real.tan_sub_pi _).symm
  rw [htan, Real.arctan_tan (by linarith) (by linarith)]

/-- C2: `_circular_mean` always lands in [0, 360) and differs from the
vector-average direction of the unit vectors (at the code's
`3.14159`-approximated radian scale) by an exact whole number of turns;
on the wrap-around input {350°, 10°} its value is within 0.01° of 0
modulo 360 (concretely, just below 360, i.e. a hair less than a full
turn), and in particular is not the naive arithmetic mean 180°. -/
theorem circular_mean_vector_average :
    (∀ angles : List ℚ, 0 ≤ circular_mean angles ∧ circular_mean angles < 360) ∧
    (∀ angles : List ℚ, ∃ k : ℤ, circular_mean angles =
      atan2 (((angles.map fun a => (a : ℝ) * 3.14159 / 180).map Real.sin).sum /
          angles.length)
        (((angles.map fun a => (a : ℝ) * 3.14159 / 180).map Real.cos).sum /
          angles.length) * 180 / 3.14159 - 360 * k) ∧
    min (circular_mean [350, 10]) (360 - circular_mean [350, 10]) < 1 / 100 ∧
    circular_mean [350, 10] ≠ 180 := by
  have hrange : ∀ angles : List ℚ, 0 ≤ circular_mean angles ∧ circular_mean angles < 360 := by
    intro angles
    unfold circular_mean
    by_cases h : angles = []
    · rw [if_pos h]
      norm_num
    · rw [if_neg h]
      simp only []
      generalize atan2 (((angles.map fun a => (a : ℝ) * 3.14159 / 180).map Real.sin).sum /
          angles.length)
        (((angles.map fun a => (a : ℝ) * 3.14159 / 180).map Real.cos).sum /
          angles.length) * 180 / 3.14159 = md
      have hfr : md - 360 * ⌊md / 360⌋ = 360 * Int.fract (md / 360) := by
        rw [Int.fract]
        ring
      rw [hfr]
      constructor
      · have := Int.fract_nonneg (md / 360)
        linarith
      · have := Int.fract_lt_one (md / 360)
        linarith
  have hmdlb : -(1 : ℝ) / 1000 < ((3.14159 : ℝ) - Real.pi) * 180 / 3.14159 := by
    have hpl : Real.pi < (3.141593 : ℝ) := Real.pi_lt_d6
    rw [lt_div_iff₀ (by norm_num : (0 : ℝ) < 3.14159)]
    linarith
  have hmdub : ((3.14159 : ℝ) - Real.pi) * 180 / 3.14159 < 0 := by
    have hpg : (3.141592 : ℝ) < Real.pi := Real.pi_gt_d6
    apply div_neg_of_neg_of_pos
    · linarith
    · norm_num
  have hfloor : ⌊((3.14159 : ℝ) - Real.pi) * 180 / 3.14159 / 360⌋ = -1 := by
    rw [Int.floor_eq_iff]
    constructor
    · push_cast
      nlinarith
    · push_cast
      nlinarith
  have hval : circular_mean [350, 10] =
      ((3.14159 : ℝ) - Real.pi) * 180 / 3.14159 -
        360 * ⌊((3.14159 : ℝ) - Real.pi) * 180 / 3.14159 / 360⌋ := by
    have hred : circular_mean [350, 10] =
        atan2 ((Real.sin (350 * (3.14159 : ℝ) / 180) +
            Real.sin (10 * (3.14159 : ℝ) / 180)) / 2)
          ((Real.cos (350 * (3.14159 : ℝ) / 180) +
            Real.cos (10 * (3.14159 : ℝ) / 180)) / 2) * 180 / 3.14159 -
          360 * ⌊atan2 ((Real.sin (350 * (3.14159 : ℝ) / 180) +
            Real.sin (10 * (3.14159 : ℝ) / 180)) / 2)
          ((Real.cos (350 * (3.14159 : ℝ) / 180) +
            Real.cos (10 * (3.14159 : ℝ) / 180)) / 2) * 180 / 3.14159 / 360⌋ := by
      unfold circular_mean
      rw [if_neg (by simp)]
      simp only [List.map_cons, List.map_nil, List.sum_cons, List.sum_nil, add_zero,
        List.length_cons, List.length_nil]
      push_cast
      norm_num
    rw [hred, atan2_vector_350_10]
  have hconcrete : circular_mean [350, 10] =
      ((3.14159 : ℝ) - Real.pi) * 180 / 3.14159 + 360 := by
    rw [hval, hfloor]
    push_cast
    ring
  refine ⟨hrange, ?_, ?_, ?_⟩
  · intro angles
    unfold circular_mean
    by_cases h : angles = []
    · rw [if_pos h]
      refine ⟨0, ?_⟩
      subst h
      simp only [List.map_nil, List.sum_nil, List.length_nil]
      unfold atan2
      norm_num
    · rw [if_neg h]
      simp only []
      exact ⟨_, rfl⟩
  · have h1 : 360 - circular_mean [350, 10] < 1 / 100 := by
      rw [hconcrete]
      linarith
    exact lt_of_le_of_lt (min_le_right _ _) h1
  · rw [hconcrete]
    intro hcontra
    linarith

end WeatherMAS
